import Mathlib

/-! Text-to-picture front-end controller (`script.js`)

A shallow embedding of the page script: the module-level variables and the
parts of the DOM the script reads and writes form an explicit `State`; every
callback the script registers (timer, promise continuation, DOM listener) is a
function on that state, and `step` dispatches one event of the browser's event
loop to its callback.  Numbers are exact rationals.
-/

namespace TextToPicture

/-! ## Values exchanged with the backend -/

/-- The `config` object returned by `api.load_config()`, with the fields the
script reads.  A field that is `undefined` is `none`. -/
structure Config where
  default_format : Option String
  font_size : Option String
  bg_color : Option String
  font_color : Option String
  image_width : Option String
  theme : Option String
  history : Option (List String)
  deriving DecidableEq, Repr

/-- The value resolved by `api.generate_image(...)`. -/
structure GenResult where
  success : Bool
  image_data : String
  message : String
  deriving DecidableEq, Repr

/-- The value resolved by `api.choose_save_path(...)`; `path` may be absent. -/
structure SaveResult where
  success : Bool
  path : Option String
  message : String
  deriving DecidableEq, Repr

/-- The value resolved by `api.save_config(config)`. -/
structure ConfigResult where
  success : Bool
  message : String
  deriving DecidableEq, Repr

/-- How a backend promise settles. -/
inductive Settled
  | config (c : Config)
  | image (r : GenResult)
  | path (r : SaveResult)
  | saved (r : ConfigResult)
  | rejected
  deriving DecidableEq, Repr

/-- A backend call whose promise has not settled yet, together with the
continuation that awaits it.  `generate_image true` is the call awaited by the
generate-button handler (which goes on to save), `generate_image false` the one
made by an input listener. -/
inductive Pending
  | load_config
  | generate_image (thenSave : Bool)
  | choose_save_path
  | save_config
  deriving DecidableEq, Repr

/-- Observable actions of the script on its environment. -/
inductive Effect
  | call_load_config
  | call_generate_image (text format fontSize bgColor fontColor imageWidth : String)
  | call_choose_save_path (suggested : String)
  | call_save_config (c : Config)
  | link_click (href download : String)
  deriving DecidableEq, Repr

/-- The form controls read by the script (`.value` of each element). -/
structure Inputs where
  text : String
  format : String
  fontSize : String
  bgColor : String
  fontColor : String
  imageWidth : String
  deriving DecidableEq, Repr

/-- The form controls that can be edited. -/
inductive Field
  | text | format | fontSize | bgColor | fontColor | imageWidth
  deriving DecidableEq, Repr

/-- State of the promise returned by `waitForApi`. -/
inductive ApiPromise
  | waiting
  | resolved
  | rejected (error : String)
  deriving DecidableEq, Repr

/-! ## Program state -/

/-- The variables declared at the top of the `DOMContentLoaded` callback, the
closure variables of `waitForApi`, the parts of the document the script reads
and writes, and the environment (backend calls in flight, actions performed).
`ticks` counts the runs of the `setInterval` callback and `messageTimers` the
`setTimeout` callbacks of `showMessage` that have not fired yet. -/
structure State where
  api : Bool
  config : Option Config
  zoomLevel : ℚ
  panX : ℚ
  panY : ℚ
  isDragging : Bool
  startX : ℚ
  startY : ℚ
  attempts : Nat
  timerSet : Bool
  apiPromise : ApiPromise
  ticks : Nat
  listening : Bool
  messageText : String
  messageColor : String
  messageTimers : Nat
  inputs : Inputs
  imgSrc : String
  imgTransform : Option (ℚ × ℚ × ℚ)
  historyList : List String
  dark : Bool
  cursor : String
  pending : List Pending
  log : List Effect
  deriving DecidableEq

/-- The state when the `DOMContentLoaded` callback returns: the variables hold
their initial values and `waitForApi()` has set its interval timer.  The
contents of the form and of the image element come from the page. -/
def State.init (page : Inputs) (src : String) : State :=
  { api := false, config := none, zoomLevel := 1, panX := 0, panY := 0,
    isDragging := false, startX := 0, startY := 0,
    attempts := 0, timerSet := true, apiPromise := ApiPromise.waiting, ticks := 0,
    listening := false, messageText := "", messageColor := "", messageTimers := 0,
    inputs := page, imgSrc := src, imgTransform := none, historyList := [],
    dark := false, cursor := "", pending := [], log := [] }

/-! ## Helpers of the script -/

/-- JavaScript truthiness of an optional string: `undefined` and the empty
string are falsy. -/
def truthy : Option String → Bool
  | none => false
  | some p => p != ""

/-- The expression `v || d` for an optional string `v`. -/
def orDefault (v : Option String) (d : String) : String :=
  match v with
  | none => d
  | some p => if p = "" then d else p

/-- The function `showMessage(text, color)`: sets the colour and the text of
the message element and arms a 3 s timer that clears the text. -/
def showMessage (s : State) (text color : String) : State :=
  { s with messageColor := color, messageText := text,
           messageTimers := s.messageTimers + 1 }

/-- The function `updateTransform(img)`: translate by the pan, scale by the zoom. -/
def updateTransform (s : State) : State :=
  { s with imgTransform := some (s.panX, s.panY, s.zoomLevel) }

/-- The effect of `updateHistory(path)` on `config` when `path` is truthy:
`config.history = config.history || []`, `unshift(path)`, `slice(0, 10)`. -/
def Config.pushHistory (c : Config) (path : String) : Config :=
  { c with history := some ((path :: (c.history.getD [])).take 10) }

/-- The function `updateHistory(path)`.  A falsy `path` returns at once.
Otherwise the history of `config` is updated and the list element is rebuilt
from it; when `config` is still `undefined` the property access throws
(`none`). -/
def updateHistory (s : State) : Option String → Option State
  | none => some s
  | some path =>
    if path = "" then some s
    else
      match s.config with
      | none => none
      | some c =>
        let c1 := c.pushHistory path
        some { s with config := some c1, historyList := c1.history.getD [] }

/-! ## `waitForApi` and start-up -/

/-- The callback of `waitForApi().then(...)`: requests the configuration and
registers the listeners. -/
def apiReady (s : State) : State :=
  { s with log := s.log ++ [Effect.call_load_config],
           pending := s.pending ++ [Pending.load_config],
           listening := true }

/-- One run of the `setInterval` callback `checkApi` of
`waitForApi(maxAttempts, interval)`; `present` tells whether
`window.pywebview?.api` is truthy at that moment.  After `clearInterval` the
callback does not run any more. -/
def checkApi (maxAttempts : Nat) (present : Bool) (s : State) : State :=
  if !s.timerSet then s
  else if present then
    apiReady { s with timerSet := false, api := true,
                      apiPromise := ApiPromise.resolved,
                      attempts := s.attempts + 1, ticks := s.ticks + 1 }
  else if s.attempts ≥ maxAttempts then
    { showMessage s "错误：无法初始化API，请检查Python环境或重启程序" "red" with
        timerSet := false,
        apiPromise := ApiPromise.rejected "API not available",
        attempts := s.attempts + 1, ticks := s.ticks + 1 }
  else
    { s with attempts := s.attempts + 1, ticks := s.ticks + 1 }

/-- The state after the first `n` timer ticks of `waitForApi(maxAttempts, _)`
started in `s`, where `present k` tells whether the API is there at tick
`k + 1`. -/
def waitRun (maxAttempts : Nat) (present : Nat → Bool) (s : State) : Nat → State
  | 0 => s
  | n + 1 => checkApi maxAttempts (present n) (waitRun maxAttempts present s n)

/-- Milliseconds elapsed when a timer of period `interval` fires for the
`n`-th time. -/
def tickTime (interval n : Nat) : Nat := n * interval

/-- The callback of `api.load_config().then(...)` (`some`) and of its `.catch`
(`none`).  A select element whose value is set to `undefined` shows no option,
so its value reads as the empty string. -/
def loadConfigDone (s : State) : Option Config → State
  | none => showMessage s "加载配置失败" "red"
  | some c =>
    let s1 : State :=
      { s with config := some c,
               inputs := { s.inputs with
                 format := c.default_format.getD "",
                 fontSize := orDefault c.font_size "24",
                 bgColor := orDefault c.bg_color "#FFFFFF",
                 fontColor := orDefault c.font_color "#000000",
                 imageWidth := orDefault c.image_width "800" },
               dark := if c.theme = some "dark" then true else s.dark }
    match updateHistory s1 none with
    | some s2 => s2
    | none => showMessage s1 "加载配置失败" "red"

/-! ## Preview and save -/

/-- The body of `generatePreview` up to its `await`: reads the form, returns at
once (`none`) when the text is empty, otherwise calls `api.generate_image`
(`some` of the state with the call in flight).  `thenSave` records whether the
generate-button handler awaits this call. -/
def generatePreview (s : State) (thenSave : Bool) : Option State :=
  if s.inputs.text = "" then none
  else
    some { s with
      log := s.log ++ [Effect.call_generate_image s.inputs.text s.inputs.format
        s.inputs.fontSize s.inputs.bgColor s.inputs.fontColor s.inputs.imageWidth],
      pending := s.pending ++ [Pending.generate_image thenSave] }

/-- The body of `generatePreview` after its `await`: `some r` when the call
resolved with `r`, `none` when it rejected (the `catch` block). -/
def generatePreviewDone (s : State) : Option GenResult → State
  | none => showMessage s "预览生成失败" "red"
  | some r =>
    if !r.success then showMessage s r.message "red"
    else
      updateTransform { s with imgSrc := r.image_data, zoomLevel := 1, panX := 0, panY := 0 }

/-- The generate-button handler after `await generatePreview()`: reads the
format and calls `api.choose_save_path`. -/
def choosePath (s : State) : State :=
  { s with log := s.log ++ [Effect.call_choose_save_path ("output." ++ s.inputs.format)],
           pending := s.pending ++ [Pending.choose_save_path] }

/-- The generate-button handler up to its first `await`. -/
def generateClick (s : State) : State :=
  if s.inputs.text = "" then showMessage s "请输入文本" "red"
  else
    match generatePreview s true with
    | some s1 => s1
    | none => choosePath s

/-- The generate-button handler after `await api.choose_save_path(...)`:
`some r` when the call resolved with `r`; when it rejected (`none`) the handler
ends with an unhandled rejection.  The image element exists, so the inner test
on it succeeds; an exception thrown by `updateHistory` ends the handler after
the link was clicked. -/
def choosePathDone (s : State) : Option SaveResult → State
  | none => s
  | some r =>
    if !r.success then showMessage s r.message "red"
    else
      match r.path with
      | none => showMessage s "未选择保存路径" "orange"
      | some path =>
        if path = "" then showMessage s "未选择保存路径" "orange"
        else
          let s1 : State := { s with log := s.log ++ [Effect.link_click s.imgSrc path] }
          match updateHistory s1 (some path) with
          | none => s1
          | some s2 => showMessage s2 "图片保存成功" "green"

/-- The form after the user gave control `f` the value `v`. -/
def setInput (i : Inputs) (f : Field) (v : String) : Inputs :=
  match f with
  | Field.text => { i with text := v }
  | Field.format => { i with format := v }
  | Field.fontSize => { i with fontSize := v }
  | Field.bgColor => { i with bgColor := v }
  | Field.fontColor => { i with fontColor := v }
  | Field.imageWidth => { i with imageWidth := v }

/-- An `input` event on control `f`, which now holds `v`: every control but the
format select has `generatePreview` as its listener. -/
def inputEvent (s : State) (f : Field) (v : String) : State :=
  let s1 : State := { s with inputs := setInput s.inputs f v }
  if f = Field.format then s1 else (generatePreview s1 false).getD s1

/-! ## Theme and configuration buttons -/

/-- The theme-toggle handler; with `config` still `undefined` the assignment to
`config.theme` throws after the class was toggled. -/
def themeToggle (s : State) : State :=
  let s1 : State := { s with dark := !s.dark }
  match s1.config with
  | none => s1
  | some c =>
    showMessage
      { s1 with config := some { c with theme := some (if s1.dark then "dark" else "light") } }
      "主题切换成功" "green"

/-- The save-config handler up to its `await`; with `config` still `undefined`
the first assignment throws. -/
def saveConfigClick (s : State) : State :=
  match s.config with
  | none => s
  | some c =>
    let c1 : Config :=
      { c with default_format := some s.inputs.format, font_size := some s.inputs.fontSize,
               bg_color := some s.inputs.bgColor, font_color := some s.inputs.fontColor,
               image_width := some s.inputs.imageWidth }
    { s with config := some c1,
             log := s.log ++ [Effect.call_save_config c1],
             pending := s.pending ++ [Pending.save_config] }

/-- The save-config handler after its `await` (`none`: the `catch` block). -/
def saveConfigDone (s : State) : Option ConfigResult → State
  | none => showMessage s "配置保存失败" "red"
  | some r => showMessage s r.message (if r.success then "green" else "red")

/-! ## Zoom and pan -/

/-- The `wheel` listener: `zoomLevel = Math.min(Math.max(0.5, zoomLevel + deltaY * -0.001), 5)`. -/
def wheel (s : State) (deltaY : ℚ) : State :=
  let delta := deltaY * (-1 / 1000)
  let newZoom := s.zoomLevel + delta
  updateTransform { s with zoomLevel := min (max (1 / 2) newZoom) 5 }

/-- The `mousedown` listener; only button 0 starts a drag. -/
def mousedown (s : State) (button : Int) (clientX clientY : ℚ) : State :=
  if button ≠ 0 then s
  else
    { s with isDragging := true, startX := clientX - s.panX, startY := clientY - s.panY,
             cursor := "grabbing" }

/-- The `mousemove` listener. -/
def mousemove (s : State) (clientX clientY : ℚ) : State :=
  if !s.isDragging then s
  else updateTransform { s with panX := clientX - s.startX, panY := clientY - s.startY }

/-- The `mouseup` listener. -/
def mouseup (s : State) : State :=
  { s with isDragging := false, cursor := "grab" }

/-! ## The event loop -/

/-- One turn of the event loop. -/
inductive Event
  | tick (present : Bool)
  | messageTimeout
  | settle (k : Nat) (o : Settled)
  | themeClick
  | generateClick
  | saveConfigClick
  | input (f : Field) (v : String)
  | wheel (deltaY : ℚ)
  | mousedown (button : Int) (clientX clientY : ℚ)
  | mousemove (clientX clientY : ℚ)
  | mouseup
  deriving DecidableEq

/-- The `setTimeout` callback of `showMessage`. -/
def messageTimeout (s : State) : State :=
  if s.messageTimers = 0 then s
  else { s with messageText := "", messageTimers := s.messageTimers - 1 }

/-- The `k`-th backend call in flight settles with `o`: the call leaves the
list and its continuation runs.  A value of the wrong shape for the call is not
a behaviour of the backend and leaves the state as it is. -/
def settle (s : State) (k : Nat) (o : Settled) : State :=
  let s1 : State := { s with pending := s.pending.eraseIdx k }
  match s.pending[k]?, o with
  | some Pending.load_config, Settled.config c => loadConfigDone s1 (some c)
  | some Pending.load_config, Settled.rejected => loadConfigDone s1 none
  | some (Pending.generate_image thenSave), Settled.image r =>
    let s2 := generatePreviewDone s1 (some r)
    if thenSave then choosePath s2 else s2
  | some (Pending.generate_image thenSave), Settled.rejected =>
    let s2 := generatePreviewDone s1 none
    if thenSave then choosePath s2 else s2
  | some Pending.choose_save_path, Settled.path r => choosePathDone s1 (some r)
  | some Pending.choose_save_path, Settled.rejected => choosePathDone s1 none
  | some Pending.save_config, Settled.saved r => saveConfigDone s1 (some r)
  | some Pending.save_config, Settled.rejected => saveConfigDone s1 none
  | _, _ => s

/-- Dispatches one event.  The main program calls `waitForApi()` with its
defaults (20 attempts); the listeners exist once its promise has resolved. -/
def step (s : State) : Event → State
  | Event.tick present => checkApi 20 present s
  | Event.messageTimeout => messageTimeout s
  | Event.settle k o => settle s k o
  | Event.themeClick => if s.listening then themeToggle s else s
  | Event.generateClick => if s.listening then generateClick s else s
  | Event.saveConfigClick => if s.listening then saveConfigClick s else s
  | Event.input f v => if s.listening then inputEvent s f v else s
  | Event.wheel deltaY => if s.listening then wheel s deltaY else s
  | Event.mousedown button x y => if s.listening then mousedown s button x y else s
  | Event.mousemove x y => if s.listening then mousemove s x y else s
  | Event.mouseup => if s.listening then mouseup s else s

/-- Runs a sequence of events. -/
def run (s : State) (es : List Event) : State := es.foldl step s

/-! ## Notions used in the statements -/

/-- The zoom level lies in `[0.5, 5]`. -/
def ZoomOK (s : State) : Prop := 1 / 2 ≤ s.zoomLevel ∧ s.zoomLevel ≤ 5

/-- Saturating clamp of `x` to `[lo, hi]`, as the specification words it. -/
def clamp (x lo hi : ℚ) : ℚ :=
  if x < lo then lo else if hi < x then hi else x

/-- The way a `generate_image` promise settles. -/
def Settled.ofGen : Option GenResult → Settled
  | none => Settled.rejected
  | some r => Settled.image r

/-- A `mousedown` with the left button. -/
def Event.isLeftDown : Event → Bool
  | Event.mousedown button _ _ => button = 0
  | _ => false

/-- The program calls `updateHistory(p)` for each path of a list in turn; an
exception ends the sequence. -/
def updateHistoryAll (s : State) : List String → Option State
  | [] => some s
  | p :: ps => (updateHistory s (some p)).bind (fun t => updateHistoryAll t ps)

/-- The history of a configuration, empty when absent. -/
def Config.historyLength (c : Config) : Nat := (c.history.getD []).length

/-- The configuration, when there is one, holds at most 10 history entries. -/
def HistoryOK (s : State) : Prop := ∀ c, s.config = some c → c.historyLength ≤ 10

/-- A configuration delivered by the backend in this event, if any. -/
def Event.loaded : Event → Option Config
  | Event.settle _ (Settled.config c) => some c
  | _ => none

/-- A page with the form in its usual initial state. -/
def samplePage : Inputs :=
  { text := "", format := "png", fontSize := "24", bgColor := "#FFFFFF",
    fontColor := "#000000", imageWidth := "800" }

/-- A state in the middle of a drag, zoomed and panned, showing an image. -/
def sampleState : State :=
  { (State.init samplePage "data:old") with
      api := true, listening := true, timerSet := false, apiPromise := ApiPromise.resolved,
      zoomLevel := 3, panX := 7, panY := -2, isDragging := true, startX := 10, startY := 20 }

/-- The page after the API came up and the user typed "a" and then "ab": two
preview calls are in flight, behind the configuration request. -/
def twoPreviews : State :=
  run (State.init samplePage "")
    [Event.tick true, Event.input Field.text "a", Event.input Field.text "ab"]

/-- A configuration as the backend may deliver it. -/
def sampleConfig : Config :=
  { default_format := some "png", font_size := some "24", bg_color := none,
    font_color := none, image_width := some "800", theme := some "light", history := some [] }

/-- The page after the API came up, the configuration was loaded, the user
typed "hi" and the preview of it arrived: an image is shown and no call is in
flight. -/
def oldImageShown : State :=
  run (State.init samplePage "")
    [Event.tick true, Event.settle 0 (Settled.config sampleConfig),
     Event.input Field.text "hi", Event.settle 0 (Settled.image ⟨true, "data:old", ""⟩)]

/-- Eleven distinct paths, oldest first. -/
def elevenPaths : List String :=
  ["p1", "p2", "p3", "p4", "p5", "p6", "p7", "p8", "p9", "p10", "p11"]

/-- A configuration whose stored history has eleven entries. -/
def longHistoryConfig : Config := { sampleConfig with history := some elevenPaths }

/-! ## Zoom bounds -/

theorem zoomOK_init (page : Inputs) (src : String) : ZoomOK (State.init page src) := by
  constructor <;> norm_num [State.init]

theorem wheel_zoomOK (s : State) (deltaY : ℚ) : ZoomOK (wheel s deltaY) := by
  constructor
  · simp only [wheel, updateTransform]
    exact le_min (le_max_left _ _) (by norm_num)
  · simp only [wheel, updateTransform]
    exact min_le_right _ _

theorem generatePreviewDone_zoomOK (s : State) (o : Option GenResult) (h : ZoomOK s) :
    ZoomOK (generatePreviewDone s o) := by
  cases o with
  | none => exact h
  | some r =>
    simp only [generatePreviewDone]
    split
    · exact h
    · constructor <;> norm_num [updateTransform]

theorem choosePath_zoomOK (s : State) (h : ZoomOK s) : ZoomOK (choosePath s) := h

theorem updateHistory_zoomLevel (s t : State) (p : Option String)
    (h : updateHistory s p = some t) : t.zoomLevel = s.zoomLevel := by
  unfold updateHistory at h
  split at h
  · cases h; rfl
  · split at h
    · cases h; rfl
    · split at h
      · cases h
      · cases h; rfl

theorem choosePathDone_zoomLevel (s : State) (o : Option SaveResult) :
    (choosePathDone s o).zoomLevel = s.zoomLevel := by
  unfold choosePathDone
  split
  · rfl
  · split
    · rfl
    · split
      · rfl
      · split
        · rfl
        · simp only
          split
          · rfl
          · next s2 h => simp [showMessage, updateHistory_zoomLevel _ _ _ h]

theorem loadConfigDone_zoomLevel (s : State) (o : Option Config) :
    (loadConfigDone s o).zoomLevel = s.zoomLevel := by
  cases o <;> simp [loadConfigDone, updateHistory, showMessage]

theorem generatePreview_zoomLevel (s t : State) (b : Bool)
    (h : generatePreview s b = some t) : t.zoomLevel = s.zoomLevel := by
  unfold generatePreview at h
  split at h
  · cases h
  · cases h; rfl

theorem settle_zoomOK (s : State) (k : Nat) (o : Settled) (h : ZoomOK s) :
    ZoomOK (settle s k o) := by
  have h1 : ZoomOK { s with pending := s.pending.eraseIdx k } := h
  unfold settle
  simp only
  split
  · unfold ZoomOK; rw [loadConfigDone_zoomLevel]; exact h
  · unfold ZoomOK; rw [loadConfigDone_zoomLevel]; exact h
  · split
    · exact choosePath_zoomOK _ (generatePreviewDone_zoomOK _ _ h1)
    · exact generatePreviewDone_zoomOK _ _ h1
  · split
    · exact choosePath_zoomOK _ (generatePreviewDone_zoomOK _ _ h1)
    · exact generatePreviewDone_zoomOK _ _ h1
  · unfold ZoomOK; rw [choosePathDone_zoomLevel]; exact h
  · unfold ZoomOK; rw [choosePathDone_zoomLevel]; exact h
  · exact h
  · exact h
  · exact h

theorem inputEvent_zoomLevel (s : State) (f : Field) (v : String) :
    (inputEvent s f v).zoomLevel = s.zoomLevel := by
  simp only [inputEvent, generatePreview]
  split
  · rfl
  · split <;> rfl

theorem generateClick_zoomLevel (s : State) : (generateClick s).zoomLevel = s.zoomLevel := by
  unfold generateClick
  split
  · rfl
  · split
    · next s1 h => exact generatePreview_zoomLevel _ _ _ h
    · rfl

theorem step_zoomOK (s : State) (e : Event) (h : ZoomOK s) : ZoomOK (step s e) := by
  cases e with
  | tick present =>
    simp only [step, checkApi]
    split
    · exact h
    · split
      · exact h
      · split <;> exact h
  | messageTimeout =>
    simp only [step, messageTimeout]
    split <;> exact h
  | settle k o => exact settle_zoomOK s k o h
  | themeClick =>
    simp only [step, themeToggle]
    split
    · split <;> exact h
    · exact h
  | generateClick =>
    simp only [step]
    split
    · unfold ZoomOK; rw [generateClick_zoomLevel]; exact h
    · exact h
  | saveConfigClick =>
    simp only [step, saveConfigClick]
    split
    · split <;> exact h
    · exact h
  | input f v =>
    simp only [step]
    split
    · unfold ZoomOK; rw [inputEvent_zoomLevel]; exact h
    · exact h
  | wheel deltaY =>
    simp only [step]
    split
    · exact wheel_zoomOK s deltaY
    · exact h
  | mousedown button x y =>
    simp only [step, mousedown]
    split
    · split <;> exact h
    · exact h
  | mousemove x y =>
    simp only [step, mousemove]
    split
    · split <;> exact h
    · exact h
  | mouseup =>
    simp only [step, mouseup]
    split <;> exact h

theorem run_zoomOK (es : List Event) (s : State) (h : ZoomOK s) : ZoomOK (run s es) := by
  induction es generalizing s with
  | nil => exact h
  | cons e es ih => exact ih (step s e) (step_zoomOK s e h)

/-- C3: from the initial state, after every prefix of every finite sequence of
events (wheel events with any `deltaY`, drags, preview completions that succeed
or fail, and every other event of the program) the zoom level satisfies
`0.5 ≤ zoomLevel ≤ 5`. -/
theorem zoom_bound_invariant (page : Inputs) (src : String) (es : List Event) (n : Nat) :
    1 / 2 ≤ (run (State.init page src) (es.take n)).zoomLevel ∧
      (run (State.init page src) (es.take n)).zoomLevel ≤ 5 :=
  run_zoomOK (es.take n) (State.init page src) (zoomOK_init page src)

/-! ## Viewport reset and wheel zoom -/

theorem wheel_eq_clamp (s : State) (deltaY : ℚ) :
    (wheel s deltaY).zoomLevel = clamp (s.zoomLevel - deltaY * (1 / 1000)) (1 / 2) 5 := by
  have e : s.zoomLevel + deltaY * (-1 / 1000) = s.zoomLevel - deltaY * (1 / 1000) := by ring
  simp only [wheel, updateTransform, clamp, e]
  generalize s.zoomLevel - deltaY * (1 / 1000) = x
  by_cases h1 : x < 1 / 2
  · rw [if_pos h1, max_eq_left h1.le, min_eq_left (by norm_num)]
  · rw [if_neg h1, max_eq_right (not_lt.mp h1)]
    by_cases h2 : 5 < x
    · rw [if_pos h2, min_eq_right h2.le]
    · rw [if_neg h2, min_eq_left (not_lt.mp h2)]

/-- C9: a successful result of `generatePreview` sets `zoomLevel = 1`,
`panX = 0`, `panY = 0` whatever the viewport and drag state were; a wheel event
with `deltaY = -100` then gives `zoomLevel = 1.1` exactly; and every wheel event
sets `zoomLevel` to `clamp(zoomLevel - deltaY * 0.001, 0.5, 5)`. -/
theorem preview_success_resets_viewport (s : State) (r : GenResult) (deltaY : ℚ)
    (h : r.success = true) :
    (generatePreviewDone s (some r)).zoomLevel = 1 ∧
      (generatePreviewDone s (some r)).panX = 0 ∧
      (generatePreviewDone s (some r)).panY = 0 ∧
      (wheel (generatePreviewDone s (some r)) (-100)).zoomLevel = 11 / 10 ∧
      (wheel s deltaY).zoomLevel = clamp (s.zoomLevel - deltaY * (1 / 1000)) (1 / 2) 5 := by
  have e : generatePreviewDone s (some r) =
      updateTransform { s with imgSrc := r.image_data, zoomLevel := 1, panX := 0, panY := 0 } := by
    simp [generatePreviewDone, h]
  refine ⟨by rw [e]; rfl, by rw [e]; rfl, by rw [e]; rfl, ?_, wheel_eq_clamp s deltaY⟩
  rw [e]
  simp only [wheel, updateTransform]
  norm_num

theorem preview_success_resets_viewport_witness :
    (generatePreviewDone sampleState (some ⟨true, "data:new", ""⟩)).zoomLevel = 1 ∧
      (wheel (generatePreviewDone sampleState (some ⟨true, "data:new", ""⟩)) (-100)).zoomLevel
        = 11 / 10 :=
  ⟨(preview_success_resets_viewport sampleState ⟨true, "data:new", ""⟩ 0 rfl).1,
   (preview_success_resets_viewport sampleState ⟨true, "data:new", ""⟩ 0 rfl).2.2.2.1⟩

/-! ## Preview without effect -/

/-- C10: with an empty text `generatePreview` returns at once: an input
listener then makes no call to `api.generate_image` and leaves image, zoom, pan
and message as they were.  When the call resolves with `success = false` or
rejects, image, zoom and pan are unchanged and the only change is that the
error message is shown in red, `result.message` verbatim in the first case. -/
theorem preview_without_effect (s : State) (thenSave : Bool) (f : Field) (v : String)
    (r : GenResult) (hempty : (setInput s.inputs f v).text = "") (hfail : r.success = false) :
    generatePreview { s with inputs := setInput s.inputs f v } thenSave = none ∧
      inputEvent s f v = { s with inputs := setInput s.inputs f v } ∧
      (inputEvent s f v).log = s.log ∧ (inputEvent s f v).pending = s.pending ∧
      generatePreviewDone s (some r) = showMessage s r.message "red" ∧
      generatePreviewDone s none = showMessage s "预览生成失败" "red" ∧
      (∀ o : Option GenResult, o = some r ∨ o = none →
        (generatePreviewDone s o).imgSrc = s.imgSrc ∧
        (generatePreviewDone s o).zoomLevel = s.zoomLevel ∧
        (generatePreviewDone s o).panX = s.panX ∧
        (generatePreviewDone s o).panY = s.panY ∧
        (generatePreviewDone s o).imgTransform = s.imgTransform ∧
        (generatePreviewDone s o).log = s.log) ∧
      (generatePreviewDone s (some r)).messageText = r.message ∧
      (generatePreviewDone s (some r)).messageColor = "red" := by
  have e1 : generatePreview { s with inputs := setInput s.inputs f v } thenSave = none := by
    simp [generatePreview, hempty]
  have e0 : generatePreview { s with inputs := setInput s.inputs f v } false = none := by
    simp [generatePreview, hempty]
  have e2 : inputEvent s f v = { s with inputs := setInput s.inputs f v } := by
    simp only [inputEvent, e0, Option.getD_none, ite_self]
  have e3 : generatePreviewDone s (some r) = showMessage s r.message "red" := by
    simp [generatePreviewDone, hfail]
  refine ⟨e1, e2, by rw [e2], by rw [e2], e3, rfl, ?_, by rw [e3]; rfl, by rw [e3]; rfl⟩
  intro o ho
  rcases ho with rfl | rfl
  · rw [e3]; exact ⟨rfl, rfl, rfl, rfl, rfl, rfl⟩
  · exact ⟨rfl, rfl, rfl, rfl, rfl, rfl⟩

theorem preview_without_effect_witness :
    generatePreviewDone sampleState (some ⟨false, "", "font missing"⟩) =
      showMessage sampleState "font missing" "red" :=
  (preview_without_effect sampleState false Field.fontSize "30"
    ⟨false, "", "font missing"⟩ rfl rfl).2.2.2.2.1

/-! ## Drag panning -/

theorem updateHistory_isDragging (s t : State) (p : Option String)
    (h : updateHistory s p = some t) : t.isDragging = s.isDragging := by
  unfold updateHistory at h
  split at h
  · cases h; rfl
  · split at h
    · cases h; rfl
    · split at h
      · cases h
      · cases h; rfl

theorem choosePathDone_isDragging (s : State) (o : Option SaveResult) :
    (choosePathDone s o).isDragging = s.isDragging := by
  unfold choosePathDone
  split
  · rfl
  · split
    · rfl
    · split
      · rfl
      · split
        · rfl
        · simp only
          split
          · rfl
          · next s2 h => simp [showMessage, updateHistory_isDragging _ _ _ h]

theorem generatePreviewDone_isDragging (s : State) (o : Option GenResult) :
    (generatePreviewDone s o).isDragging = s.isDragging := by
  cases o with
  | none => rfl
  | some r =>
    simp only [generatePreviewDone]
    split <;> rfl

theorem loadConfigDone_isDragging (s : State) (o : Option Config) :
    (loadConfigDone s o).isDragging = s.isDragging := by
  cases o <;> simp [loadConfigDone, updateHistory, showMessage]

theorem settle_isDragging (s : State) (k : Nat) (o : Settled) :
    (settle s k o).isDragging = s.isDragging := by
  unfold settle
  simp only
  split
  · rw [loadConfigDone_isDragging]
  · rw [loadConfigDone_isDragging]
  · split
    · exact generatePreviewDone_isDragging _ _
    · exact generatePreviewDone_isDragging _ _
  · split
    · exact generatePreviewDone_isDragging _ _
    · exact generatePreviewDone_isDragging _ _
  · rw [choosePathDone_isDragging]
  · rw [choosePathDone_isDragging]
  · rfl
  · rfl
  · rfl

theorem step_not_dragging (s : State) (e : Event) (he : e.isLeftDown = false)
    (h : s.isDragging = false) : (step s e).isDragging = false := by
  cases e with
  | tick present =>
    simp only [step, checkApi]
    split
    · exact h
    · split
      · exact h
      · split <;> exact h
  | messageTimeout =>
    simp only [step, messageTimeout]
    split <;> exact h
  | settle k o => simp only [step]; rw [settle_isDragging]; exact h
  | themeClick =>
    simp only [step, themeToggle]
    split
    · split <;> exact h
    · exact h
  | generateClick =>
    simp only [step, generateClick, generatePreview]
    split
    · split
      · exact h
      · split
        · next h1 => cases h1; exact h
        · exact h
    · exact h
  | saveConfigClick =>
    simp only [step, saveConfigClick]
    split
    · split <;> exact h
    · exact h
  | input f v =>
    simp only [step, inputEvent, generatePreview]
    split
    · split
      · exact h
      · split <;> exact h
    · exact h
  | wheel deltaY =>
    simp only [step]
    split
    · exact h
    · exact h
  | mousedown button x y =>
    have hb : button ≠ 0 := by simpa [Event.isLeftDown] using he
    simp only [step, mousedown, if_pos hb, ite_self]
    exact h
  | mousemove x y =>
    simp only [step, mousemove]
    split
    · split
      · exact h
      · next h1 => simp [h] at h1
    · exact h
  | mouseup =>
    simp only [step, mouseup]
    split
    · rfl
    · exact h

theorem run_not_dragging (es : List Event) (s : State)
    (hes : es.all (fun e => !e.isLeftDown) = true) (h : s.isDragging = false) :
    (run s es).isDragging = false := by
  induction es generalizing s with
  | nil => exact h
  | cons e es ih =>
    simp only [List.all_cons, Bool.and_eq_true, Bool.not_eq_true'] at hes
    exact ih (step s e) hes.2 (step_not_dragging s e hes.1 h)

/-- C8: a left-button `mousedown` at `(x0, y0)` followed by a `mousemove` at
`(x1, y1)` gives pan `(panX + x1 - x0, panY + y1 - y0)`; and after a `mouseup`,
through any events that contain no left-button `mousedown`, a `mousemove`
leaves `panX` and `panY` (indeed the whole state) unchanged. -/
theorem drag_panning (s : State) (x0 y0 x1 y1 x y : ℚ) (es : List Event)
    (hes : es.all (fun e => !e.isLeftDown) = true) :
    (mousemove (mousedown s 0 x0 y0) x1 y1).panX = s.panX + x1 - x0 ∧
      (mousemove (mousedown s 0 x0 y0) x1 y1).panY = s.panY + y1 - y0 ∧
      (mousemove (run (mouseup s) es) x y).panX = (run (mouseup s) es).panX ∧
      (mousemove (run (mouseup s) es) x y).panY = (run (mouseup s) es).panY ∧
      step (run (mouseup s) es) (Event.mousemove x y) = run (mouseup s) es := by
  have hd : (run (mouseup s) es).isDragging = false := run_not_dragging es (mouseup s) hes rfl
  have hm : mousemove (run (mouseup s) es) x y = run (mouseup s) es := by
    simp [mousemove, hd]
  refine ⟨?_, ?_, by rw [hm], by rw [hm], ?_⟩
  · simp only [mousemove, mousedown, updateTransform]
    norm_num
    ring
  · simp only [mousemove, mousedown, updateTransform]
    norm_num
    ring
  · simp only [step, hm, ite_self]

theorem drag_panning_witness :
    ((mousemove (mousedown (generatePreviewDone sampleState (some ⟨true, "data:new", ""⟩))
        0 100 100) 150 120).panX = 50 ∧
      (mousemove (mousedown (generatePreviewDone sampleState (some ⟨true, "data:new", ""⟩))
        0 100 100) 150 120).panY = 20) ∧
      (mousemove (run (mouseup sampleState)
        [Event.mousemove 200 200, Event.wheel 30, Event.mousedown 2 5 5]) 200 200).panX = 7 :=
  ⟨⟨(drag_panning (generatePreviewDone sampleState (some ⟨true, "data:new", ""⟩))
        100 100 150 120 0 0 [] rfl).1.trans
      (by norm_num [generatePreviewDone, updateTransform]),
    (drag_panning (generatePreviewDone sampleState (some ⟨true, "data:new", ""⟩))
        100 100 150 120 0 0 [] rfl).2.1.trans
      (by norm_num [generatePreviewDone, updateTransform])⟩,
   ((drag_panning sampleState 0 0 0 0 200 200
      [Event.mousemove 200 200, Event.wheel 30, Event.mousedown 2 5 5] (by decide)).2.2.1).trans
    (by simp [run, step, mouseup, mousemove, wheel, mousedown, updateTransform, sampleState,
          State.init])⟩

/-! ## Completion of backend calls -/

theorem settle_generate (s : State) (k : Nat) (b : Bool) (o : Option GenResult)
    (h : s.pending[k]? = some (Pending.generate_image b)) :
    settle s k (Settled.ofGen o) =
      if b then choosePath (generatePreviewDone { s with pending := s.pending.eraseIdx k } o)
      else generatePreviewDone { s with pending := s.pending.eraseIdx k } o := by
  cases o <;> simp only [settle, Settled.ofGen, h]

theorem settle_choose (s : State) (k : Nat) (r : SaveResult)
    (h : s.pending[k]? = some Pending.choose_save_path) :
    settle s k (Settled.path r) =
      choosePathDone { s with pending := s.pending.eraseIdx k } (some r) := by
  simp only [settle, h]

theorem generatePreviewDone_pending (s : State) (o : Option GenResult) :
    (generatePreviewDone s o).pending = s.pending := by
  cases o with
  | none => rfl
  | some r =>
    simp only [generatePreviewDone]
    split <;> rfl

theorem generatePreviewDone_success (s : State) (r : GenResult) (h : r.success = true) :
    generatePreviewDone s (some r) =
      updateTransform { s with imgSrc := r.image_data, zoomLevel := 1, panX := 0, panY := 0 } := by
  simp [generatePreviewDone, h]

theorem settle_success_imgSrc (s : State) (k : Nat) (b : Bool) (r : GenResult)
    (h : s.pending[k]? = some (Pending.generate_image b)) (hr : r.success = true) :
    (settle s k (Settled.image r)).imgSrc = r.image_data := by
  have e := settle_generate s k b (some r) h
  simp only [Settled.ofGen] at e
  rw [e, generatePreviewDone_success _ _ hr]
  cases b <;> rfl

theorem settle_generate_pending (s : State) (k : Nat) (b : Bool) (o : Option GenResult)
    (h : s.pending[k]? = some (Pending.generate_image b)) :
    (settle s k (Settled.ofGen o)).pending =
      s.pending.eraseIdx k ++ (if b then [Pending.choose_save_path] else []) := by
  rw [settle_generate s k b o h]
  cases b
  · simp [generatePreviewDone_pending]
  · simp [choosePath, generatePreviewDone_pending]

/-- C1 (as the code behaves): with two preview calls in flight, R1 issued before
R2 (calls are queued in the order they are issued), both successful, when R2
completes first and R1 afterwards the image shown after R2's completion is R2's
`image_data` and the image shown after R1's completion is R1's `image_data`:
every successful completion writes its image, the last completion wins. -/
theorem last_completed_preview_wins (s : State) (k1 k2 : Nat) (b1 b2 : Bool)
    (r1 r2 : GenResult) (hk : k1 < k2)
    (h1 : s.pending[k1]? = some (Pending.generate_image b1))
    (h2 : s.pending[k2]? = some (Pending.generate_image b2))
    (hs1 : r1.success = true) (hs2 : r2.success = true) :
    (settle s k2 (Settled.image r2)).imgSrc = r2.image_data ∧
      (settle (settle s k2 (Settled.image r2)) k1 (Settled.image r1)).imgSrc
        = r1.image_data := by
  refine ⟨settle_success_imgSrc s k2 b2 r2 h2 hs2, ?_⟩
  apply settle_success_imgSrc _ k1 b1 r1 _ hs1
  have hp := settle_generate_pending s k2 b2 (some r2) h2
  simp only [Settled.ofGen] at hp
  have hlt : k1 < (s.pending.eraseIdx k2).length := by
    have hk1 : k1 < s.pending.length := by
      by_contra hc
      rw [List.getElem?_eq_none (not_lt.mp hc)] at h1
      cases h1
    have hk2 : k2 < s.pending.length := by
      by_contra hc
      rw [List.getElem?_eq_none (not_lt.mp hc)] at h2
      cases h2
    rw [List.length_eraseIdx, if_pos hk2]
    omega
  rw [hp, List.getElem?_append_left hlt, List.getElem?_eraseIdx, if_pos hk, h1]

theorem last_completed_preview_wins_witness :
    (settle (settle twoPreviews 2 (Settled.image ⟨true, "data:R2", ""⟩)) 1
      (Settled.image ⟨true, "data:R1", ""⟩)).imgSrc = "data:R1" :=
  (last_completed_preview_wins twoPreviews 1 2 false false ⟨true, "data:R1", ""⟩
    ⟨true, "data:R2", ""⟩ (by decide) rfl rfl rfl rfl).2

/-- C1 fails as stated: the user types "a" (request R1) and then "ab" (request
R2); R2's call completes first and its image is shown; when R1's call completes
afterwards its image replaces R2's. -/
theorem stale_preview_overwrites :
    twoPreviews.log =
        [Effect.call_load_config,
         Effect.call_generate_image "a" "png" "24" "#FFFFFF" "#000000" "800",
         Effect.call_generate_image "ab" "png" "24" "#FFFFFF" "#000000" "800"] ∧
      twoPreviews.pending =
        [Pending.load_config, Pending.generate_image false, Pending.generate_image false] ∧
      (run twoPreviews [Event.settle 2 (Settled.image ⟨true, "data:R2", ""⟩)]).imgSrc
        = "data:R2" ∧
      (run twoPreviews [Event.settle 2 (Settled.image ⟨true, "data:R2", ""⟩),
        Event.settle 1 (Settled.image ⟨true, "data:R1", ""⟩)]).imgSrc = "data:R1" ∧
      (run twoPreviews [Event.settle 2 (Settled.image ⟨true, "data:R2", ""⟩),
        Event.settle 1 (Settled.image ⟨true, "data:R1", ""⟩)]).imgSrc ≠ "data:R2" := by
  refine ⟨rfl, rfl, rfl, rfl, ?_⟩
  decide

/-! ## The generate-button handler -/

theorem generatePreviewDone_frame (s : State) (o : Option GenResult) :
    (generatePreviewDone s o).log = s.log ∧ (generatePreviewDone s o).config = s.config ∧
      (generatePreviewDone s o).historyList = s.historyList ∧
      (generatePreviewDone s o).inputs = s.inputs := by
  cases o with
  | none => exact ⟨rfl, rfl, rfl, rfl⟩
  | some r =>
    simp only [generatePreviewDone]
    split <;> exact ⟨rfl, rfl, rfl, rfl⟩

theorem generatePreviewDone_failed_imgSrc (s : State) (o : Option GenResult)
    (hfail : ∀ g, o = some g → g.success = false) : (generatePreviewDone s o).imgSrc = s.imgSrc := by
  cases o with
  | none => rfl
  | some r => simp [generatePreviewDone, hfail r rfl, showMessage]

theorem generateClick_calls (s : State) (htext : s.inputs.text ≠ "") :
    generateClick s =
      { s with
        log := s.log ++ [Effect.call_generate_image s.inputs.text s.inputs.format
          s.inputs.fontSize s.inputs.bgColor s.inputs.fontColor s.inputs.imageWidth],
        pending := s.pending ++ [Pending.generate_image true] } := by
  simp [generateClick, generatePreview, htext]

theorem generateClick_then_preview (s : State) (o : Option GenResult)
    (htext : s.inputs.text ≠ "") :
    settle (generateClick s) s.pending.length (Settled.ofGen o) =
      choosePath (generatePreviewDone
        { s with log := s.log ++ [Effect.call_generate_image s.inputs.text s.inputs.format
            s.inputs.fontSize s.inputs.bgColor s.inputs.fontColor s.inputs.imageWidth] } o) := by
  rw [generateClick_calls s htext, settle_generate _ _ true o (by simp)]
  simp [List.eraseIdx_append_of_length_le]

theorem choosePath_then_settle (s : State) (r : SaveResult) :
    settle (choosePath s) s.pending.length (Settled.path r) =
      choosePathDone
        { s with log := s.log ++ [Effect.call_choose_save_path ("output." ++ s.inputs.format)] }
        (some r) := by
  rw [settle_choose _ _ r (by simp [choosePath])]
  simp [choosePath, List.eraseIdx_append_of_length_le]

theorem choosePathDone_no_path (s : State) (r : SaveResult) (hs : r.success = true)
    (hp : truthy r.path = false) :
    choosePathDone s (some r) = showMessage s "未选择保存路径" "orange" := by
  rcases r with ⟨succ, path, msg⟩
  simp only at hs
  subst hs
  cases path with
  | none => simp [choosePathDone]
  | some p =>
    have : p = "" := by simpa [truthy] using hp
    subst this
    simp [choosePathDone]

theorem choosePathDone_with_path (s : State) (p msg : String) (hp : p ≠ "") :
    (choosePathDone s (some ⟨true, some p, msg⟩)).log = s.log ++ [Effect.link_click s.imgSrc p] ∧
      (choosePathDone s (some ⟨true, some p, msg⟩)).config
        = s.config.map (fun c => c.pushHistory p) := by
  cases hc : s.config with
  | none => simp [choosePathDone, hp, updateHistory, hc]
  | some c => simp [choosePathDone, hp, updateHistory, hc, showMessage]

theorem generatePreviewDone_failed_message (s : State) (o : Option GenResult)
    (hfail : ∀ g, o = some g → g.success = false) :
    (generatePreviewDone s o).messageText = (o.map (fun g => g.message)).getD "预览生成失败" ∧
      (generatePreviewDone s o).messageColor = "red" := by
  cases o with
  | none => exact ⟨rfl, rfl⟩
  | some r => simp [generatePreviewDone, hfail r rfl, showMessage]

/-- The run of the generate-button handler when its preview call fails, in
every state with a non-empty text: the error message of the preview is shown
in red (`result.message`, or the fixed text on a rejection), the displayed
image stays as it was, and the handler goes on to call
`api.choose_save_path("output." + format)`; if that reports failure or returns
no path nothing is downloaded and `config` is unchanged, and if it returns
`success = true` with a non-empty path the link is clicked with the displayed
image and `updateHistory(path)` runs on the configuration. -/
theorem generateClick_failed_preview_run (s : State) (o : Option GenResult)
    (htext : s.inputs.text ≠ "") (hfail : ∀ g, o = some g → g.success = false) :
    (settle (generateClick s) s.pending.length (Settled.ofGen o)).imgSrc = s.imgSrc ∧
      (settle (generateClick s) s.pending.length (Settled.ofGen o)).messageText =
        (o.map (fun g => g.message)).getD "预览生成失败" ∧
      (settle (generateClick s) s.pending.length (Settled.ofGen o)).messageColor = "red" ∧
      (settle (generateClick s) s.pending.length (Settled.ofGen o)).log =
        s.log ++ [Effect.call_generate_image s.inputs.text s.inputs.format s.inputs.fontSize
            s.inputs.bgColor s.inputs.fontColor s.inputs.imageWidth,
          Effect.call_choose_save_path ("output." ++ s.inputs.format)] ∧
      (settle (generateClick s) s.pending.length (Settled.ofGen o)).pending =
        s.pending ++ [Pending.choose_save_path] ∧
      (∀ r : SaveResult, r.success = false ∨ truthy r.path = false →
        (settle (settle (generateClick s) s.pending.length (Settled.ofGen o))
            s.pending.length (Settled.path r)).log =
          (settle (generateClick s) s.pending.length (Settled.ofGen o)).log ∧
        (settle (settle (generateClick s) s.pending.length (Settled.ofGen o))
            s.pending.length (Settled.path r)).config = s.config) ∧
      (∀ p msg : String, p ≠ "" →
        (settle (settle (generateClick s) s.pending.length (Settled.ofGen o))
            s.pending.length (Settled.path ⟨true, some p, msg⟩)).log =
          (settle (generateClick s) s.pending.length (Settled.ofGen o)).log
            ++ [Effect.link_click s.imgSrc p] ∧
        (settle (settle (generateClick s) s.pending.length (Settled.ofGen o))
            s.pending.length (Settled.path ⟨true, some p, msg⟩)).config =
          s.config.map (fun c => c.pushHistory p)) := by
  have e := generateClick_then_preview s o htext
  obtain ⟨hlog, hcfg, -, hin⟩ := generatePreviewDone_frame
    { s with log := s.log ++ [Effect.call_generate_image s.inputs.text s.inputs.format
        s.inputs.fontSize s.inputs.bgColor s.inputs.fontColor s.inputs.imageWidth] } o
  have himg := generatePreviewDone_failed_imgSrc
    { s with log := s.log ++ [Effect.call_generate_image s.inputs.text s.inputs.format
        s.inputs.fontSize s.inputs.bgColor s.inputs.fontColor s.inputs.imageWidth] } o hfail
  have hpend := generatePreviewDone_pending
    { s with log := s.log ++ [Effect.call_generate_image s.inputs.text s.inputs.format
        s.inputs.fontSize s.inputs.bgColor s.inputs.fontColor s.inputs.imageWidth] } o
  obtain ⟨hmsg, hcol⟩ := generatePreviewDone_failed_message
    { s with log := s.log ++ [Effect.call_generate_image s.inputs.text s.inputs.format
        s.inputs.fontSize s.inputs.bgColor s.inputs.fontColor s.inputs.imageWidth] } o hfail
  rw [e]
  generalize generatePreviewDone
    { s with log := s.log ++ [Effect.call_generate_image s.inputs.text s.inputs.format
        s.inputs.fontSize s.inputs.bgColor s.inputs.fontColor s.inputs.imageWidth] } o = u
    at hlog hcfg hin himg hpend hmsg hcol
  simp only at hlog hcfg hin himg hpend
  have hlen : s.pending.length = u.pending.length := by rw [hpend]
  refine ⟨himg, hmsg, hcol, ?_, ?_, ?_, ?_⟩
  · simp [choosePath, hlog, hin]
  · simp [choosePath, hpend]
  · intro r hr
    rw [hlen, choosePath_then_settle]
    rcases hr with hr | hr
    · simp [choosePathDone, hr, showMessage, choosePath, hcfg]
    · cases hs : r.success with
      | false => simp [choosePathDone, hs, showMessage, choosePath, hcfg]
      | true =>
        rw [choosePathDone_no_path _ _ hs hr]
        simp [showMessage, choosePath, hcfg]
  · intro p msg hp
    rw [hlen, choosePath_then_settle]
    obtain ⟨h1, h2⟩ := choosePathDone_with_path
      { u with log := u.log ++ [Effect.call_choose_save_path ("output." ++ u.inputs.format)] }
      p msg hp
    rw [h1, h2]
    simp [choosePath, himg, hcfg]

/-- C2 (the code differs): the claim says that a failed preview step aborts the
generate-button handler before any save.  In the code, with the text "hi" and
an earlier image on display, the generate button is clicked and the preview
call resolves with `success = false`: the error message is shown in red and
the image stays the earlier one, yet the handler still calls
`api.choose_save_path`, and when a path comes back it clicks the download link
with the earlier image, runs `updateHistory` and reports success.  The same
happens when the preview call rejects. -/
theorem failed_preview_still_saves :
    oldImageShown.inputs.text = "hi" ∧ oldImageShown.imgSrc = "data:old" ∧
      oldImageShown.pending = [] ∧
      (run oldImageShown [Event.generateClick,
        Event.settle 0 (Settled.image ⟨false, "", "render failed"⟩)]).messageText
          = "render failed" ∧
      (run oldImageShown [Event.generateClick,
        Event.settle 0 (Settled.image ⟨false, "", "render failed"⟩)]).messageColor = "red" ∧
      (run oldImageShown [Event.generateClick,
        Event.settle 0 (Settled.image ⟨false, "", "render failed"⟩)]).imgSrc = "data:old" ∧
      (run oldImageShown [Event.generateClick,
        Event.settle 0 (Settled.image ⟨false, "", "render failed"⟩)]).log =
        oldImageShown.log ++
          [Effect.call_generate_image "hi" "png" "24" "#FFFFFF" "#000000" "800",
           Effect.call_choose_save_path "output.png"] ∧
      (run oldImageShown [Event.generateClick,
        Event.settle 0 (Settled.image ⟨false, "", "render failed"⟩),
        Event.settle 0 (Settled.path ⟨true, some "out.png", ""⟩)]).log =
        oldImageShown.log ++
          [Effect.call_generate_image "hi" "png" "24" "#FFFFFF" "#000000" "800",
           Effect.call_choose_save_path "output.png",
           Effect.link_click "data:old" "out.png"] ∧
      ((run oldImageShown [Event.generateClick,
        Event.settle 0 (Settled.image ⟨false, "", "render failed"⟩),
        Event.settle 0 (Settled.path ⟨true, some "out.png", ""⟩)]).config.map
          (fun c => c.history)) = some (some ["out.png"]) ∧
      (run oldImageShown [Event.generateClick,
        Event.settle 0 (Settled.image ⟨false, "", "render failed"⟩),
        Event.settle 0 (Settled.path ⟨true, some "out.png", ""⟩)]).messageText
          = "图片保存成功" ∧
      (run oldImageShown [Event.generateClick, Event.settle 0 Settled.rejected,
        Event.settle 0 (Settled.path ⟨true, some "out.png", ""⟩)]).log =
        oldImageShown.log ++
          [Effect.call_generate_image "hi" "png" "24" "#FFFFFF" "#000000" "800",
           Effect.call_choose_save_path "output.png",
           Effect.link_click "data:old" "out.png"] := by
  refine ⟨rfl, rfl, rfl, rfl, rfl, rfl, rfl, rfl, rfl, rfl, rfl⟩

/-! ## Saving without a chosen path -/

/-- C7: for a non-empty text, whatever the outcome of the preview call, when
`api.choose_save_path` resolves with `success = true` and an absent or empty
path the generate-button handler shows the message 'no path chosen' in orange,
leaves `config` (and with it `config.history`) and the rendered history list
unchanged, and performs no action beyond the two backend calls: no download
link is clicked. -/
theorem save_without_path_is_cancelled (s : State) (o : Option GenResult) (r : SaveResult)
    (htext : s.inputs.text ≠ "") (hs : r.success = true) (hp : truthy r.path = false) :
    (settle (settle (generateClick s) s.pending.length (Settled.ofGen o))
        s.pending.length (Settled.path r)).messageText = "未选择保存路径" ∧
      (settle (settle (generateClick s) s.pending.length (Settled.ofGen o))
        s.pending.length (Settled.path r)).messageColor = "orange" ∧
      (settle (settle (generateClick s) s.pending.length (Settled.ofGen o))
        s.pending.length (Settled.path r)).config = s.config ∧
      (settle (settle (generateClick s) s.pending.length (Settled.ofGen o))
        s.pending.length (Settled.path r)).historyList = s.historyList ∧
      (settle (settle (generateClick s) s.pending.length (Settled.ofGen o))
        s.pending.length (Settled.path r)).log =
        s.log ++ [Effect.call_generate_image s.inputs.text s.inputs.format s.inputs.fontSize
            s.inputs.bgColor s.inputs.fontColor s.inputs.imageWidth,
          Effect.call_choose_save_path ("output." ++ s.inputs.format)] ∧
      (∀ t : State, choosePathDone t (some r) = showMessage t "未选择保存路径" "orange") := by
  have e := generateClick_then_preview s o htext
  obtain ⟨hlog, hcfg, hhist, hin⟩ := generatePreviewDone_frame
    { s with log := s.log ++ [Effect.call_generate_image s.inputs.text s.inputs.format
        s.inputs.fontSize s.inputs.bgColor s.inputs.fontColor s.inputs.imageWidth] } o
  have hpend := generatePreviewDone_pending
    { s with log := s.log ++ [Effect.call_generate_image s.inputs.text s.inputs.format
        s.inputs.fontSize s.inputs.bgColor s.inputs.fontColor s.inputs.imageWidth] } o
  rw [e]
  generalize generatePreviewDone
    { s with log := s.log ++ [Effect.call_generate_image s.inputs.text s.inputs.format
        s.inputs.fontSize s.inputs.bgColor s.inputs.fontColor s.inputs.imageWidth] } o = u
    at hlog hcfg hhist hin hpend
  simp only at hlog hcfg hhist hin hpend
  have hlen : s.pending.length = u.pending.length := by rw [hpend]
  rw [hlen, choosePath_then_settle, choosePathDone_no_path _ _ hs hp]
  refine ⟨rfl, rfl, ?_, ?_, ?_, fun t => choosePathDone_no_path t r hs hp⟩
  · simp [showMessage, hcfg]
  · simp [showMessage, hhist]
  · simp [showMessage, hlog, hin]

theorem save_without_path_is_cancelled_witness :
    (settle (settle (generateClick oldImageShown) oldImageShown.pending.length
        (Settled.ofGen (some ⟨true, "data:new", ""⟩)))
        oldImageShown.pending.length (Settled.path ⟨true, none, ""⟩)).config
      = oldImageShown.config :=
  (save_without_path_is_cancelled oldImageShown (some ⟨true, "data:new", ""⟩) ⟨true, none, ""⟩
    (by decide) rfl rfl).2.2.1

/-! ## `waitForApi` when the API never appears -/

theorem waitRun_waiting (m : Nat) (s : State) (hs : s.timerSet = true) (n : Nat)
    (h : s.attempts + n ≤ m) :
    (waitRun m (fun _ => false) s n).attempts = s.attempts + n ∧
      (waitRun m (fun _ => false) s n).timerSet = true ∧
      (waitRun m (fun _ => false) s n).apiPromise = s.apiPromise ∧
      (waitRun m (fun _ => false) s n).config = s.config ∧
      (waitRun m (fun _ => false) s n).ticks = s.ticks + n := by
  induction n with
  | zero => exact ⟨rfl, hs, rfl, rfl, rfl⟩
  | succ n ih =>
    obtain ⟨h1, h2, h3, h4, h5⟩ := ih (by omega)
    have hlt : ¬ (waitRun m (fun _ => false) s n).attempts ≥ m := by rw [h1]; omega
    have e : waitRun m (fun _ => false) s (n + 1) =
        { waitRun m (fun _ => false) s n with
            attempts := (waitRun m (fun _ => false) s n).attempts + 1,
            ticks := (waitRun m (fun _ => false) s n).ticks + 1 } := by
      simp only [waitRun, checkApi, h2, Bool.not_true, Bool.false_eq_true, if_false, hlt]
    rw [e]
    exact ⟨by simp only [h1]; omega, h2, h3, h4, by simp only [h5]; omega⟩

theorem waitRun_rejects (m : Nat) (page : Inputs) (src : String) :
    (waitRun m (fun _ => false) (State.init page src) (m + 1)).apiPromise
        = ApiPromise.rejected "API not available" ∧
      (waitRun m (fun _ => false) (State.init page src) (m + 1)).ticks = m + 1 ∧
      (waitRun m (fun _ => false) (State.init page src) (m + 1)).config = none := by
  obtain ⟨h1, h2, -, h4, h5⟩ :=
    waitRun_waiting m (State.init page src) rfl m (by simp [State.init])
  have hge : (waitRun m (fun _ => false) (State.init page src) m).attempts ≥ m := by
    rw [h1]; simp [State.init]
  have e : waitRun m (fun _ => false) (State.init page src) (m + 1) =
      { showMessage (waitRun m (fun _ => false) (State.init page src) m)
          "错误：无法初始化API，请检查Python环境或重启程序" "red" with
        timerSet := false,
        apiPromise := ApiPromise.rejected "API not available",
        attempts := (waitRun m (fun _ => false) (State.init page src) m).attempts + 1,
        ticks := (waitRun m (fun _ => false) (State.init page src) m).ticks + 1 } := by
    simp only [waitRun, checkApi, h2, Bool.not_true, Bool.false_eq_true, if_false, hge, if_true]
  rw [e]
  refine ⟨rfl, ?_, ?_⟩
  · simp only [h5]; simp [State.init]
  · simp only [showMessage, h4]; rfl

/-- C4 (the code differs): with the defaults `maxAttempts = 20`,
`interval = 300` and the API never present, after the 20th timer tick (6000 ms)
the promise of `waitForApi` is still pending; it rejects with
'API not available' at the 21st tick (6300 ms), after 21 probes; `config` is
never assigned.  For every `maxAttempts` the promise is pending after
`maxAttempts` ticks and rejected after `maxAttempts + 1`. -/
theorem waitForApi_rejects_one_tick_late :
    (∀ (m : Nat) (page : Inputs) (src : String),
        (waitRun m (fun _ => false) (State.init page src) m).apiPromise = ApiPromise.waiting ∧
        (waitRun m (fun _ => false) (State.init page src) (m + 1)).apiPromise
          = ApiPromise.rejected "API not available") ∧
      tickTime 300 20 = 6000 ∧
      (waitRun 20 (fun _ => false) (State.init samplePage "") 20).apiPromise
        = ApiPromise.waiting ∧
      (waitRun 20 (fun _ => false) (State.init samplePage "") 20).timerSet = true ∧
      tickTime 300 21 = 6300 ∧
      (waitRun 20 (fun _ => false) (State.init samplePage "") 21).apiPromise
        = ApiPromise.rejected "API not available" ∧
      (waitRun 20 (fun _ => false) (State.init samplePage "") 21).ticks = 21 ∧
      (waitRun 20 (fun _ => false) (State.init samplePage "") 21).config = none ∧
      run (State.init samplePage "") (List.replicate 21 (Event.tick false))
        = waitRun 20 (fun _ => false) (State.init samplePage "") 21 := by
  refine ⟨fun m page src => ⟨?_, (waitRun_rejects m page src).1⟩,
    rfl, rfl, rfl, rfl, rfl, rfl, rfl, ?_⟩
  · exact (waitRun_waiting m (State.init page src) rfl m (by simp [State.init])).2.2.1
  · decide

/-! ## History -/

theorem take_append_take (n : Nat) (a b : List String) :
    (a ++ b.take n).take n = (a ++ b).take n := by
  rw [List.take_append_eq_append_take, List.take_append_eq_append_take, List.take_take]
  congr 2
  omega

theorem updateHistory_some (s : State) (c : Config) (p : String) (hc : s.config = some c)
    (hp : p ≠ "") :
    updateHistory s (some p) =
      some { s with config := some (c.pushHistory p),
                    historyList := (p :: (c.history.getD [])).take 10 } := by
  simp [updateHistory, hp, hc, Config.pushHistory]

theorem updateHistoryAll_history (paths : List String) (s : State) (c : Config) (p : String)
    (hc : s.config = some c) (hp : p ≠ "") (hne : ∀ q ∈ paths, q ≠ "") :
    ∃ t d, updateHistoryAll s (p :: paths) = some t ∧ t.config = some d ∧
      d.history = some (((p :: paths).reverse ++ c.history.getD []).take 10) ∧
      t.historyList = ((p :: paths).reverse ++ c.history.getD []).take 10 := by
  induction paths generalizing s c p with
  | nil =>
    refine ⟨{ s with config := some (c.pushHistory p),
                     historyList := (p :: (c.history.getD [])).take 10 },
      c.pushHistory p, ?_, rfl, ?_, ?_⟩
    · simp only [updateHistoryAll, updateHistory_some s c p hc hp, Option.some_bind]
    · simp [Config.pushHistory]
    · simp
  | cons q qs ih =>
    have hq : q ≠ "" := hne q (List.mem_cons_self _ _)
    obtain ⟨t, d, h1, h2, h3, h4⟩ := ih
      { s with config := some (c.pushHistory p),
               historyList := (p :: (c.history.getD [])).take 10 }
      (c.pushHistory p) q rfl hq (fun x hx => hne x (List.mem_cons_of_mem _ hx))
    refine ⟨t, d, ?_, h2, ?_, ?_⟩
    · rw [updateHistoryAll, updateHistory_some s c p hc hp, Option.some_bind]
      exact h1
    · rw [h3]
      simp only [Config.pushHistory, Option.getD_some]
      rw [take_append_take]
      simp
    · rw [h4]
      simp only [Config.pushHistory, Option.getD_some]
      rw [take_append_take]
      simp

/-- C5: whatever the initial history of the configuration (absent or a list),
calling `updateHistory(p1)`, ..., `updateHistory(pN)` with more than 10
non-empty paths leaves `config.history` equal to the paths in reverse order cut
to 10 entries, that is `[pN, ..., pN-9]`, and the rendered list shows the
same. -/
theorem updateHistory_keeps_ten_most_recent (s : State) (c : Config) (paths : List String)
    (hc : s.config = some c) (hne : ∀ p ∈ paths, p ≠ "") (hN : 10 < paths.length) :
    ∃ t d, updateHistoryAll s paths = some t ∧ t.config = some d ∧
      d.history = some (paths.reverse.take 10) ∧
      t.historyList = paths.reverse.take 10 ∧
      (paths.reverse.take 10).length = 10 ∧
      ∀ i, i < 10 → (paths.reverse.take 10)[i]? = paths[paths.length - 1 - i]? := by
  have hcut : ∀ h : List String, (paths.reverse ++ h).take 10 = paths.reverse.take 10 := by
    intro h
    rw [List.take_append_eq_append_take, List.length_reverse]
    have : 10 - paths.length = 0 := by omega
    simp [this]
  cases paths with
  | nil => simp at hN
  | cons p ps =>
    obtain ⟨t, d, h1, h2, h3, h4⟩ := updateHistoryAll_history ps s c p hc
      (hne p (List.mem_cons_self _ _)) (fun x hx => hne x (List.mem_cons_of_mem _ hx))
    refine ⟨t, d, h1, h2, by rw [h3, hcut], by rw [h4, hcut], ?_, ?_⟩
    · rw [List.length_take, List.length_reverse]
      omega
    · intro i hi
      have hlen : i < (p :: ps).length := by omega
      rw [List.getElem?_take_of_lt hi, List.getElem?_reverse hlen]

theorem updateHistory_keeps_ten_most_recent_witness :
    elevenPaths.reverse.take 10 = ["p11", "p10", "p9", "p8", "p7", "p6", "p5", "p4", "p3", "p2"] ∧
      ∃ t d, updateHistoryAll oldImageShown elevenPaths = some t ∧ t.config = some d ∧
        d.history = some (elevenPaths.reverse.take 10) :=
  ⟨rfl,
   (updateHistory_keeps_ten_most_recent oldImageShown sampleConfig elevenPaths rfl
      (by decide) (by decide)).elim
    (fun t ht => ht.elim (fun d hd => ⟨t, d, hd.1, hd.2.1, hd.2.2.1⟩))⟩

theorem pushHistory_historyLength (c : Config) (p : String) :
    (c.pushHistory p).historyLength ≤ 10 := by
  simp only [Config.historyLength, Config.pushHistory, Option.getD_some, List.length_take]
  exact Nat.min_le_left _ _

theorem updateHistory_historyOK (s t : State) (p : Option String) (hs : HistoryOK s)
    (h : updateHistory s p = some t) : HistoryOK t := by
  unfold updateHistory at h
  split at h
  · cases h; exact hs
  · split at h
    · cases h; exact hs
    · split at h
      · cases h
      · cases h
        intro d hd
        simp only [Option.some.injEq] at hd
        subst hd
        exact pushHistory_historyLength _ _

theorem showMessage_historyOK (s : State) (a b : String) (hs : HistoryOK s) :
    HistoryOK (showMessage s a b) := hs

theorem choosePathDone_historyOK (s : State) (o : Option SaveResult) (hs : HistoryOK s) :
    HistoryOK (choosePathDone s o) := by
  unfold choosePathDone
  split
  · exact hs
  · split
    · exact hs
    · split
      · exact hs
      · split
        · exact hs
        · simp only
          split
          · exact hs
          · next s2 h =>
            have hs1 : HistoryOK { s with log := s.log ++ [Effect.link_click s.imgSrc ‹String›] } := hs
            exact showMessage_historyOK _ _ _ (updateHistory_historyOK _ _ _ hs1 h)

theorem generatePreviewDone_historyOK (s : State) (o : Option GenResult) (hs : HistoryOK s) :
    HistoryOK (generatePreviewDone s o) := by
  intro c hc
  rw [(generatePreviewDone_frame s o).2.1] at hc
  exact hs c hc

theorem loadConfigDone_historyOK (s : State) (o : Option Config) (hs : HistoryOK s)
    (ho : ∀ c, o = some c → c.historyLength ≤ 10) : HistoryOK (loadConfigDone s o) := by
  cases o with
  | none => exact hs
  | some c =>
    intro d hd
    simp only [loadConfigDone, updateHistory, Option.some.injEq] at hd
    subst hd
    exact ho c rfl

theorem settle_historyOK (s : State) (k : Nat) (o : Settled) (hs : HistoryOK s)
    (ho : ∀ c, (Event.settle k o).loaded = some c → c.historyLength ≤ 10) :
    HistoryOK (settle s k o) := by
  have h1 : HistoryOK { s with pending := s.pending.eraseIdx k } := hs
  unfold settle
  simp only
  split
  · exact loadConfigDone_historyOK _ _ h1 (fun c hc => ho c (by cases hc; rfl))
  · exact loadConfigDone_historyOK _ _ h1 (fun c hc => by cases hc)
  · split
    · exact generatePreviewDone_historyOK _ _ h1
    · exact generatePreviewDone_historyOK _ _ h1
  · split
    · exact generatePreviewDone_historyOK _ _ h1
    · exact generatePreviewDone_historyOK _ _ h1
  · exact choosePathDone_historyOK _ _ h1
  · exact choosePathDone_historyOK _ _ h1
  · exact hs
  · exact hs
  · exact hs

theorem step_historyOK (s : State) (e : Event) (hs : HistoryOK s)
    (ho : ∀ c, e.loaded = some c → c.historyLength ≤ 10) : HistoryOK (step s e) := by
  cases e with
  | tick present =>
    simp only [step, checkApi]
    split
    · exact hs
    · split
      · exact hs
      · split <;> exact hs
  | messageTimeout =>
    simp only [step, messageTimeout]
    split <;> exact hs
  | settle k o => exact settle_historyOK s k o hs ho
  | themeClick =>
    simp only [step, themeToggle]
    split
    · split
      · exact hs
      · next c hc =>
        intro d hd
        simp only [showMessage, Option.some.injEq] at hd
        subst hd
        exact hs c hc
    · exact hs
  | generateClick =>
    simp only [step, generateClick, generatePreview]
    split
    · split
      · exact hs
      · split
        · next h1 => cases h1; exact hs
        · exact hs
    · exact hs
  | saveConfigClick =>
    simp only [step, saveConfigClick]
    split
    · split
      · exact hs
      · next c hc =>
        intro d hd
        simp only [Option.some.injEq] at hd
        subst hd
        exact hs c hc
    · exact hs
  | input f v =>
    simp only [step, inputEvent, generatePreview]
    split
    · split
      · exact hs
      · split <;> exact hs
    · exact hs
  | wheel deltaY =>
    simp only [step]
    split <;> exact hs
  | mousedown button x y =>
    simp only [step, mousedown]
    split
    · split <;> exact hs
    · exact hs
  | mousemove x y =>
    simp only [step, mousemove]
    split
    · split <;> exact hs
    · exact hs
  | mouseup =>
    simp only [step, mouseup]
    split <;> exact hs

theorem run_historyOK (es : List Event) (s : State) (hs : HistoryOK s)
    (ho : ∀ e ∈ es, ∀ c, e.loaded = some c → c.historyLength ≤ 10) :
    HistoryOK (run s es) := by
  induction es generalizing s with
  | nil => exact hs
  | cons e es ih =>
    exact ih (step s e) (step_historyOK s e hs (ho e (List.mem_cons_self _ _)))
      (fun x hx => ho x (List.mem_cons_of_mem _ hx))

/-- C6 (as the code behaves): when every configuration the backend delivers
holds at most 10 history entries, `config.history` has at most 10 entries after
every event of the program; every call of `updateHistory` with a non-empty path
leaves at most 10 entries whatever the length before; and the call with no path
made right after the configuration is loaded returns at once, keeping the
history as loaded. -/
theorem history_bound_invariant (page : Inputs) (src : String) (es : List Event)
    (hload : ∀ e ∈ es, ∀ c, e.loaded = some c → c.historyLength ≤ 10) :
    (∀ n c, (run (State.init page src) (es.take n)).config = some c → c.historyLength ≤ 10) ∧
      (∀ (s t : State) (p : String) (d : Config), p ≠ "" →
        updateHistory s (some p) = some t → t.config = some d → d.historyLength ≤ 10) ∧
      (∀ s : State, updateHistory s none = some s) ∧
      (∀ (s : State) (c : Config), (loadConfigDone s (some c)).config = some c) := by
  refine ⟨?_, ?_, fun s => rfl, fun s c => rfl⟩
  · intro n
    exact run_historyOK (es.take n) (State.init page src) (fun c hc => by cases hc)
      (fun e he => hload e (List.mem_of_mem_take he))
  · intro s t p d hp h hd
    cases hc : s.config with
    | none => simp [updateHistory, hp, hc] at h
    | some c =>
      rw [updateHistory_some s c p hc hp] at h
      cases h
      simp only [Option.some.injEq] at hd
      subst hd
      exact pushHistory_historyLength _ _

theorem history_bound_invariant_witness :
    (run (State.init samplePage "")
        ([Event.tick true, Event.settle 0 (Settled.config sampleConfig),
          Event.input Field.text "hi", Event.generateClick,
          Event.settle 0 (Settled.image ⟨true, "data:new", ""⟩),
          Event.settle 0 (Settled.image ⟨true, "data:new", ""⟩),
          Event.settle 0 (Settled.path ⟨true, some "out.png", ""⟩)].take 7)).config
        = some { sampleConfig with history := some ["out.png"] } ∧
      Config.historyLength { sampleConfig with history := some ["out.png"] } ≤ 10 :=
  ⟨rfl,
   (history_bound_invariant samplePage ""
      [Event.tick true, Event.settle 0 (Settled.config sampleConfig),
        Event.input Field.text "hi", Event.generateClick,
        Event.settle 0 (Settled.image ⟨true, "data:new", ""⟩),
        Event.settle 0 (Settled.image ⟨true, "data:new", ""⟩),
        Event.settle 0 (Settled.path ⟨true, some "out.png", ""⟩)]
      (by decide)).1 7 { sampleConfig with history := some ["out.png"] } rfl⟩

/-- C6 fails as stated: the backend delivers a configuration whose history has
eleven entries; the load callback stores it and calls `updateHistory()` with no
path, which returns before truncating, so `config.history` has eleven entries. -/
theorem loaded_history_not_truncated :
    longHistoryConfig.historyLength = 11 ∧
      (run (State.init samplePage "")
        [Event.tick true, Event.settle 0 (Settled.config longHistoryConfig)]).config
        = some longHistoryConfig ∧
      ¬ (∀ c, (run (State.init samplePage "")
          [Event.tick true, Event.settle 0 (Settled.config longHistoryConfig)]).config = some c →
        c.historyLength ≤ 10) := by
  refine ⟨rfl, rfl, ?_⟩
  intro h
  exact absurd (h longHistoryConfig rfl) (by decide)

end TextToPicture
